import Mathlib

/-!
Shallow embedding of the French Real Estate Rental Hunter core:
the duplicate-detection engine (src/utils/duplicate_detector.py),
the outreach scheduler passes (src/scrapers/scheduler.py),
the data model (src/database/models.py) and the scraping save step
(src/scrapers/base_scraper.py).

Modelling conventions:
* Python strings are `List Char` (wrapped in `String` at the boundary);
  `str.lower` is modelled on the ASCII range, `\w` treats non-ASCII
  code points as word characters, matching Unicode `re` semantics on
  the accented letters that occur in the source's literals.
* Python floats are exact rationals `ℚ`.
* `datetime` values are integers (seconds since epoch); `timedelta(days=d)`
  is `d * 86400`, `timedelta(hours=h)` is `h * 3600`.
* `fuzzywuzzy.fuzz.ratio` is modelled by its python-Levenshtein backend:
  the normalized indel similarity `round(100 * 2 * lcs / (|a| + |b|))`
  with Python's round-half-to-even, and `100` on equal strings.
* SQLAlchemy queries over the store are list filters; SQL `NULL`
  comparisons (e.g. `last_contact_attempt < t` on NULL) are false.
-/

namespace RentalHunter

/-! ### Character-level helpers (Python `str` / `re` semantics) -/

/-- Whitespace for `str.strip`, `str.split()` and `\s`. -/
def isSpaceChar (c : Char) : Bool :=
  c = ' ' || c = '\t' || c = '\n' || c = '\r' || c = '\x0b' || c = '\x0c'

/-- Word character for `\w` and `\b`: alphanumeric, underscore, or any
non-ASCII code point (accented letters count as word characters). -/
def isWordChar (c : Char) : Bool :=
  c.isAlphanum || c = '_' || decide (c.toNat ≥ 128)

/-- ASCII lowering, the fragment of `str.lower` exercised by the source. -/
def asciiLower (c : Char) : Char :=
  if 'A' ≤ c ∧ c ≤ 'Z' then Char.ofNat (c.toNat + 32) else c

def toLowerL (s : List Char) : List Char := s.map asciiLower

/-- Python `str.strip()`. -/
def stripL (s : List Char) : List Char :=
  ((s.dropWhile isSpaceChar).reverse.dropWhile isSpaceChar).reverse

/-- Python `sub in s` substring test. -/
def containsSub (sub : List Char) : List Char → Bool
  | [] => sub.isPrefixOf ([] : List Char)
  | c :: rest => sub.isPrefixOf (c :: rest) || containsSub sub rest

/-- Fuel-driven worker for `str.replace` (left-to-right, non-overlapping). -/
def replaceAux (pat rep : List Char) : Nat → List Char → List Char
  | 0, s => s
  | _ + 1, [] => []
  | fuel + 1, c :: rest =>
      if pat.isPrefixOf (c :: rest) then
        rep ++ replaceAux pat rep fuel ((c :: rest).drop pat.length)
      else
        c :: replaceAux pat rep fuel rest

/-- Python `s.replace(pat, rep)` on char lists. -/
def replaceL (s pat rep : List Char) : List Char :=
  if pat = [] then s else replaceAux pat rep s.length s

/-- Worker for `re.sub(r'\b(w1|...|wn)\b', '', s)`: scan left to right, try
the alternatives in order at each position, require word boundaries on both
sides of a match, and drop the matched word. `prev` is the original character
immediately before the current position. -/
def stripWordsAux (words : List (List Char)) : Nat → Option Char → List Char → List Char
  | 0, _, s => s
  | _ + 1, _, [] => []
  | fuel + 1, prev, c :: rest =>
      let boundaryBefore := match prev with
        | none => true
        | some p => !isWordChar p
      match words.find? (fun w =>
          boundaryBefore && w.isPrefixOf (c :: rest) &&
          (match (c :: rest).drop w.length with
            | [] => true
            | d :: _ => !isWordChar d)) with
      | some w =>
          stripWordsAux words fuel (some (w.getLastD c)) ((c :: rest).drop w.length)
      | none => c :: stripWordsAux words fuel (some c) rest

def stripWordsL (words : List (List Char)) (s : List Char) : List Char :=
  stripWordsAux words s.length none s

/-- Worker for `re.sub(r'\b\d{5}\b', '', s)`: drop runs of exactly five
digits delimited by word boundaries. -/
def stripPostalAux : Nat → Option Char → List Char → List Char
  | 0, _, s => s
  | _ + 1, _, [] => []
  | fuel + 1, prev, c :: rest =>
      let boundaryBefore := match prev with
        | none => true
        | some p => !isWordChar p
      let five := (c :: rest).take 5
      if boundaryBefore && five.length = 5 && five.all Char.isDigit &&
          (match (c :: rest).drop 5 with
            | [] => true
            | d :: _ => !isWordChar d) then
        stripPostalAux fuel (some (five.getLastD c)) ((c :: rest).drop 5)
      else
        c :: stripPostalAux fuel (some c) rest

def stripPostalL (s : List Char) : List Char :=
  stripPostalAux s.length none s

/-- Python `re.sub(r'[^\w\s]', ' ', s)`. -/
def punctToSpace (s : List Char) : List Char :=
  s.map (fun c => if isWordChar c || isSpaceChar c then c else ' ')

/-- Worker for `re.sub(r'\s+', ' ', s)`; the flag records whether the
previous character was whitespace. -/
def collapseAux : Bool → List Char → List Char
  | _, [] => []
  | prevSpace, c :: rest =>
      if isSpaceChar c then
        if prevSpace then collapseAux true rest
        else ' ' :: collapseAux true rest
      else c :: collapseAux false rest

def collapseSpaces (s : List Char) : List Char := collapseAux false s

/-- Maximal runs of characters satisfying `p` (for `re.findall(r'\d+', s)`
with `p = Char.isDigit` and `str.split()` with `p = !isSpaceChar`). -/
def runsOf (p : Char → Bool) : List Char → List Char → List (List Char)
  | acc, [] => if acc = [] then [] else [acc.reverse]
  | acc, c :: rest =>
      if p c then runsOf p (c :: acc) rest
      else if acc = [] then runsOf p [] rest
      else acc.reverse :: runsOf p [] rest

/-- `re.findall(r'\d+', s)`. -/
def digitRuns (s : List Char) : List (List Char) := runsOf Char.isDigit [] s

/-- Python `str.split()` (split on whitespace runs, no empty tokens). -/
def splitWs (s : List Char) : List (List Char) := runsOf (fun c => !isSpaceChar c) [] s

/-! ### Numeric parsing (`parse_price`, `parse_area`, `parse_rooms`) -/

def natOfDigits (ds : List Char) : Nat :=
  ds.foldl (fun n c => 10 * n + (c.toNat - 48)) 0

/-- Python `float(s)` on a string of digits and dots, `none` on
`ValueError`; callers already map the empty string to `None`. -/
def floatOfClean (s : List Char) : Option ℚ :=
  if s = [] then none
  else if 2 ≤ (s.filter (· = '.')).length then none
  else if s.all (· = '.') then none
  else
    let intPart := s.takeWhile (· ≠ '.')
    let fracPart := (s.dropWhile (· ≠ '.')).drop 1
    some ((natOfDigits intPart : ℚ) + (natOfDigits fracPart : ℚ) / (10 : ℚ) ^ fracPart.length)

/-- `DuplicateDetector.parse_price` / `BaseScraper.parse_price`. -/
def parse_price (t : String) : Option ℚ :=
  if t = "" then none
  else
    let s := t.data
    let s := replaceL s "€".data []
    let s := replaceL s "EUR".data []
    let s := replaceL s " ".data []
    let s := replaceL s ",".data ".".data
    let s := replaceL s "CC".data []
    let s := replaceL s "charges".data []
    let s := s.filter (fun c => c.isDigit || c = '.')
    floatOfClean s

/-- `DuplicateDetector.parse_area` / `BaseScraper.parse_area`. -/
def parse_area (t : String) : Option ℚ :=
  if t = "" then none
  else
    let s := t.data
    let s := replaceL s "m²".data []
    let s := replaceL s "m2".data []
    let s := replaceL s " ".data []
    let s := s.filter (fun c => c.isDigit || c = '.')
    floatOfClean s

/-- The `room_mappings` table with keys pre-lowered, in insertion order. -/
def roomMappings : List (List Char × Nat) :=
  [("studio".data, 1),
   ("t1".data, 1), ("f1".data, 1), ("1 pièce".data, 1),
   ("t2".data, 2), ("f2".data, 2), ("2 pièces".data, 2),
   ("t3".data, 3), ("f3".data, 3), ("3 pièces".data, 3),
   ("t4".data, 4), ("f4".data, 4), ("4 pièces".data, 4),
   ("t5".data, 5), ("f5".data, 5), ("5 pièces".data, 5)]

/-- `DuplicateDetector.parse_rooms`: try the French room-description table,
then fall back to `int(numbers[0])` — the first digit character. -/
def parse_rooms (t : String) : Option Nat :=
  if t = "" then none
  else
    let lower := toLowerL t.data
    match roomMappings.find? (fun kv => containsSub kv.1 lower) with
    | some kv => some kv.2
    | none =>
        match t.data.filter Char.isDigit with
        | [] => none
        | d :: _ => some (d.toNat - 48)

/-! ### Longest common subsequence and the fuzz ratio

`fuzz.ratio` (python-Levenshtein backend) is `round(100 * (1 - d/(|a|+|b|)))`
where `d` is the indel distance, i.e. `round(100 * 2 * lcs(a,b)/(|a|+|b|))`
with Python's round-half-to-even, and `100` when the strings are equal.
The rounded percentage is computed in exact `Nat` arithmetic. -/

/-- One row step of the LCS dynamic program: `w` is the entry just computed
to the left, `prev` the previous row from the current column onward. -/
def lcsStep (c : Char) : List Char → List Nat → Nat → List Nat
  | [], _, _ => []
  | y :: ys, p0 :: p1 :: ps, w =>
      let v := if c = y then p0 + 1 else max w p1
      v :: lcsStep c ys (p1 :: ps) v
  | _ :: _, _, _ => []

def lcsNextRow (c : Char) (s2 : List Char) (prev : List Nat) : List Nat :=
  0 :: lcsStep c s2 prev 0

/-- Length of the longest common subsequence. -/
def lcsLen (s1 s2 : List Char) : Nat :=
  (s1.foldl (fun prev c => lcsNextRow c s2 prev)
    (List.replicate (s2.length + 1) 0)).getLastD 0

/-- `round(100 * a / b)` with round-half-to-even (Python `round`), on
naturals with `b ≠ 0` at use sites. -/
def roundPct (a b : Nat) : Nat :=
  let q := a / b
  let r := a % b
  if 2 * r < b then q
  else if b < 2 * r then q + 1
  else if q % 2 = 0 then q else q + 1

/-- `fuzz.ratio(s1, s2)` as a percentage in `[0, 100]`. -/
def fuzzScore (s1 s2 : List Char) : Nat :=
  if s1 = s2 then 100
  else roundPct (100 * (2 * lcsLen s1 s2)) (s1.length + s2.length)

/-! ### Address and description normalization -/

/-- The `replacements` dictionary of `_normalize_address`, in insertion
order; each is applied as a plain substring replacement. -/
def addressReplacements : List (List Char × List Char) :=
  [("rue".data, "r".data), ("avenue".data, "av".data),
   ("boulevard".data, "bd".data), ("place".data, "pl".data),
   ("square".data, "sq".data), ("impasse".data, "imp".data),
   ("passage".data, "pass".data), ("allée".data, "all".data),
   ("quai".data, "q".data)]

/-- `DuplicateDetector._normalize_address`. -/
def normalize_address (address : String) : List Char :=
  if address = "" then []
  else
    let s := stripL (toLowerL address.data)
    let s := addressReplacements.foldl (fun acc kv => replaceL acc kv.1 kv.2) s
    let s := stripWordsL ["paris".data, "lyon".data, "marseille".data, "france".data] s
    let s := stripPostalL s
    let s := punctToSpace s
    stripL (collapseSpaces s)

/-- The `jargon_to_remove` list of `_normalize_description`; each entry is
replaced, as a plain substring, by a single space. -/
def descriptionJargon : List (List Char) :=
  ["appartement".data, "logement".data, "location".data, "louer".data,
   "disponible".data, "immédiatement".data, "libre".data, "contact".data,
   "visite".data, "dossier".data]

/-- `DuplicateDetector._normalize_description`. -/
def normalize_description (description : String) : List Char :=
  if description = "" then []
  else
    let s := stripL (toLowerL description.data)
    let s := descriptionJargon.foldl (fun acc j => replaceL acc j [' ']) s
    let s := punctToSpace s
    stripL (collapseSpaces s)

/-! ### Similarity scores -/

/-- `DuplicateDetector._calculate_address_similarity`, a rational in `[0,1]`:
the fuzz ratio of the normalized addresses, a flat `0.1` bonus when the two
share a numeric token, a shared-word bonus of `0.1` per distinct common word
capped at `0.3`, the sum clamped to `1`. -/
def calculate_address_similarity (address1 address2 : String) : ℚ :=
  if address1 = "" ∨ address2 = "" then 0
  else
    let n1 := normalize_address address1
    let n2 := normalize_address address2
    let base : ℚ := (fuzzScore n1 n2 : ℚ) / 100
    let nums1 := digitRuns n1
    let nums2 := digitRuns n2
    let numBonus : ℚ :=
      if nums1 ≠ [] ∧ nums2 ≠ [] ∧ nums1.any (fun x => nums2.contains x) then 1/10 else 0
    let common := (splitWs n1).eraseDups.filter (fun w => (splitWs n2).contains w)
    let wordBonus : ℚ :=
      if common ≠ [] then min (3/10) ((common.length : ℚ) * (1/10)) else 0
    min 1 (base + numBonus + wordBonus)

/-- Lexicographic comparison of char lists by code point (Python `sorted`
on strings). -/
def lexLe : List Char → List Char → Bool
  | [], _ => true
  | _ :: _, [] => false
  | a :: as, b :: bs => if a = b then lexLe as bs else decide (a < b)

def insertToken (x : List Char) : List (List Char) → List (List Char)
  | [] => [x]
  | y :: ys => if lexLe x y then x :: y :: ys else y :: insertToken x ys

def sortTokens : List (List Char) → List (List Char)
  | [] => []
  | x :: xs => insertToken x (sortTokens xs)

/-- `fuzzywuzzy`'s `full_process` with `force_ascii`: drop non-ASCII
characters, replace non-alphanumerics by spaces, lowercase, strip. -/
def fullProcess (s : List Char) : List Char :=
  let s := s.filter (fun c => decide (c.toNat < 128))
  let s := s.map (fun c => if c.isAlphanum then c else ' ')
  stripL (toLowerL s)

/-- `fuzz.token_sort_ratio`: process both strings, sort their tokens,
rejoin with single spaces and take the plain ratio. -/
def tokenSortScore (s1 s2 : List Char) : Nat :=
  let t1 := List.intercalate [' '] (sortTokens (splitWs (fullProcess s1)))
  let t2 := List.intercalate [' '] (sortTokens (splitWs (fullProcess s2)))
  fuzzScore t1 t2

/-- `DuplicateDetector._calculate_description_similarity`. -/
def calculate_description_similarity (desc1 desc2 : String) : ℚ :=
  if desc1 = "" ∨ desc2 = "" then 0
  else (tokenSortScore (normalize_description desc1) (normalize_description desc2) : ℚ) / 100

/-! ### Data model (src/database/models.py) -/

/-- `PropertyStatus`. -/
inductive PropertyStatus where
  | new | contacted | responded | visit_scheduled | visited
  | application_sent | accepted | rejected | unavailable | duplicate
deriving DecidableEq, Repr

/-- `ContactStatus`. -/
inductive ContactStatus where
  | pending | email_sent | phone_called | responded | no_response | failed | blocked
deriving DecidableEq, Repr

/-- The `Property` model. Strings are kept as `String`; nullable numeric
columns are `Option`; timestamps are integer seconds. `price` is `Option`
because `create_property_from_data` can construct the object with a
`None` price, and SQL comparisons on `NULL` are false. -/
structure Property where
  id : Nat
  title : String
  description : String
  price : Option ℚ
  rooms : Option Nat
  area : Option ℚ
  address : String
  city : String
  source_site : String
  source_url : String
  status : PropertyStatus
  first_seen : ℤ
  last_updated : ℤ
  still_available : Bool
  duplicate_of : Option Nat
  similarity_score : Option ℚ
deriving DecidableEq, Repr

/-- The `Contact` model (the OutreachTarget). -/
structure Contact where
  id : Nat
  property_id : Nat
  name : String
  agency_name : String
  email : String
  phone : String
  status : ContactStatus
  contact_attempts : Nat
  last_contact_attempt : Option ℤ
  next_contact_scheduled : Option ℤ
  responded : Bool
  response_date : Option ℤ
deriving DecidableEq, Repr

/-- The `ScrapingLog` model (the JobRun record). -/
structure ScrapingLog where
  id : Nat
  site : String
  started_at : ℤ
  completed_at : Option ℤ
  properties_found : Nat
  properties_new : Nat
  log_status : String
deriving DecidableEq, Repr

/-- The scraped `property_data` dictionary: every field read by the core,
with `dict.get(k, '')` already applied, so absent keys are `""`. -/
structure PropertyData where
  title : String
  description : String
  price : String
  rooms : String
  area : String
  address : String
  city : String
  url : String
deriving DecidableEq, Repr

/-- The configuration surface consumed by the core (src/config/settings.py). -/
structure Config where
  address_threshold : ℚ
  description_threshold : ℚ
  price_threshold : ℚ
  max_contact_attempts : Nat
  follow_up_delay_hours : ℤ
deriving Repr

/-- The defaults: `ADDRESS_SIMILARITY_THRESHOLD = 0.85`,
`DESCRIPTION_SIMILARITY_THRESHOLD = 0.75`, `PRICE_DIFFERENCE_THRESHOLD = 50`,
`MAX_CONTACT_ATTEMPTS = 3`, `FOLLOW_UP_DELAY_HOURS = 24`. -/
def defaultConfig : Config :=
  { address_threshold := 85/100
    description_threshold := 75/100
    price_threshold := 50
    max_contact_attempts := 3
    follow_up_delay_hours := 24 }

/-! ### The duplicate decision (src/utils/duplicate_detector.py) -/

/-- Python truthiness of an optional number: `None` and `0` are falsy. -/
def truthyQ : Option ℚ → Bool
  | none => false
  | some q => decide (q ≠ 0)

def truthyNat : Option Nat → Bool
  | none => false
  | some n => decide (n ≠ 0)

/-- `DuplicateDetector._exact_specs_match`: each specification disqualifies
only when known (truthy) on both sides and out of tolerance. -/
def exact_specs_match (cfg : Config) (new_data : PropertyData) (existing : Property) : Bool :=
  let new_price := parse_price new_data.price
  let new_rooms := parse_rooms new_data.rooms
  let new_area := parse_area new_data.area
  (match new_price, existing.price with
    | some np, some ep =>
        if np ≠ 0 ∧ ep ≠ 0 then decide (|np - ep| ≤ cfg.price_threshold) else true
    | _, _ => true) &&
  (match new_rooms, existing.rooms with
    | some nr, some er =>
        if nr ≠ 0 ∧ er ≠ 0 then decide (nr = er) else true
    | _, _ => true) &&
  (match new_area, existing.area with
    | some na, some ea =>
        if na ≠ 0 ∧ ea ≠ 0 then decide (|na - ea| ≤ ea * (1/10)) else true
    | _, _ => true)

/-- The description text compared by rule 2: `new_data.get('description','')
or new_data.get('title','')` and `existing.description or existing.title`. -/
def newDescText (d : PropertyData) : String :=
  if d.description ≠ "" then d.description else d.title

def existingDescText (e : Property) : String :=
  if e.description ≠ "" then e.description else e.title

/-- `DuplicateDetector._is_same_property`: the three-rule decision,
first match wins. -/
def is_same_property (cfg : Config) (new_data : PropertyData) (existing : Property) : Bool :=
  let address_similarity := calculate_address_similarity new_data.address existing.address
  if address_similarity > cfg.address_threshold then true
  else if address_similarity > 6/10 ∧
      calculate_description_similarity (newDescText new_data) (existingDescText existing) >
        cfg.description_threshold then true
  else if address_similarity > 4/10 ∧ exact_specs_match cfg new_data existing then true
  else false

/-- The candidate's lowered, stripped city key. -/
def cityKey (d : PropertyData) : List Char := toLowerL (stripL d.city.data)

/-- The candidate pre-filter of `is_duplicate`: same city
(`ILIKE '%city%'`), price within `± price_threshold`, still available. -/
def candidateFilter (cfg : Config) (price : ℚ) (city : List Char)
    (props : List Property) : List Property :=
  props.filter (fun p =>
    containsSub city (toLowerL p.city.data) &&
    (match p.price with
      | some v => decide (price - cfg.price_threshold ≤ v ∧ v ≤ price + cfg.price_threshold)
      | none => false) &&
    p.still_available)

/-- The body of `DuplicateDetector.is_duplicate` over an already-read store. -/
def isDuplicateOn (cfg : Config) (props : List Property) (d : PropertyData) : Bool :=
  let price := parse_price d.price
  let city := cityKey d
  if truthyQ price = false ∨ city = [] then false
  else
    match price with
    | none => false
    | some p => (candidateFilter cfg p city props).any (is_same_property cfg d)

/-- `DuplicateDetector.is_duplicate` at its public boundary: the store read
may fail (`db.query(...)...all()` raising), and the enclosing
`try/except` turns any such failure into `False`. -/
def is_duplicate (cfg : Config) (d : PropertyData)
    (dbQuery : Except String (List Property)) : Bool :=
  match dbQuery with
  | .error _ => false
  | .ok props => isDuplicateOn cfg props d

/-! ### Property creation and the collection pass
(src/scrapers/base_scraper.py, src/scrapers/scheduler.py) -/

/-- The `Property(...)` constructor call in `create_property_from_data`:
`status=NEW`, availability defaults, `duplicate_of`/`similarity_score`
left at their column defaults (`None`). `now` stands for the
`datetime.utcnow` column defaults at insert time. -/
def mkProperty (d : PropertyData) (city : String) (site : String) (now : ℤ) : Property :=
  { id := 0
    title := d.title
    description := d.description
    price := parse_price d.price
    rooms := parse_rooms d.rooms
    area := parse_area d.area
    address := d.address
    city := city
    source_site := site
    source_url := d.url
    status := .new
    first_seen := now
    last_updated := now
    still_available := true
    duplicate_of := none
    similarity_score := none }

/-- `BaseScraper.create_property_from_data`: duplicates are skipped
(`None`), everything else becomes a fresh `Property`. The store read of the
embedded duplicate check may fail; the check then yields `False`. -/
def create_property_from_data (cfg : Config) (dbQuery : Except String (List Property))
    (d : PropertyData) (city : String) (site : String) (now : ℤ) : Option Property :=
  if is_duplicate cfg d dbQuery then none
  else some (mkProperty d city site now)

/-- Update the first element satisfying `pred` (the `.first()` row of a
unique-URL query). -/
def updateFirst (pred : Property → Bool) (f : Property → Property) :
    List Property → List Property
  | [] => []
  | q :: qs => if pred q then f q :: qs else q :: updateFirst pred f qs

/-- The per-property save step of `scrape_all_sites`: a row with the same
`source_url` is refreshed (`last_updated = now`, `still_available = True`),
otherwise the new property is inserted. -/
def saveScrapedProperty (now : ℤ) (props : List Property) (p : Property) : List Property :=
  if props.any (fun q => q.source_url = p.source_url) then
    updateFirst (fun q => q.source_url = p.source_url)
      (fun q => { q with last_updated := now, still_available := true }) props
  else props ++ [p]

/-- One listing through the collection pass: `create_property_from_data`
during scraping, then the save step of `scrape_all_sites`. The store list
doubles as the duplicate-check query result. -/
def collectListing (cfg : Config) (city : String) (site : String) (now : ℤ)
    (props : List Property) (d : PropertyData) : List Property :=
  match create_property_from_data cfg (.ok props) d city site now with
  | none => props
  | some p => saveScrapedProperty now props p

/-! ### Outreach passes (src/scrapers/scheduler.py) -/

/-- The contact record created by `initiate_contacts` for a property that
has none: empty identity fields, `PENDING`, and the column defaults
`contact_attempts = 0`, `responded = False`, no timestamps. -/
def mkContact (cid pid : Nat) : Contact :=
  { id := cid
    property_id := pid
    name := ""
    agency_name := ""
    email := ""
    phone := ""
    status := .pending
    contact_attempts := 0
    last_contact_attempt := none
    next_contact_scheduled := none
    responded := false
    response_date := none }

/-- The follow-up query filter of `send_follow_ups`:
`status IN (EMAIL_SENT, PHONE_CALLED)`, `responded = False`,
`last_contact_attempt < now - FOLLOW_UP_DELAY_HOURS` (false on `NULL`),
`contact_attempts < MAX_CONTACT_ATTEMPTS`. -/
def followUpEligible (cfg : Config) (now : ℤ) (c : Contact) : Bool :=
  (c.status = ContactStatus.email_sent || c.status = ContactStatus.phone_called) &&
  c.responded = false &&
  (match c.last_contact_attempt with
    | some t => decide (t < now - cfg.follow_up_delay_hours * 3600)
    | none => false) &&
  c.contact_attempts < cfg.max_contact_attempts

/-- The contact channels the scheduler dispatches. -/
inductive Channel where
  | follow_up_email | phone_call | urgent_email
deriving DecidableEq, Repr

/-- The channel chosen inside the `send_follow_ups` loop by the
`contact_attempts` if/elif/else. -/
def followUpAction (c : Contact) : Channel :=
  if c.contact_attempts = 0 then .follow_up_email
  else if c.contact_attempts = 1 then .phone_call
  else .urgent_email

/-- `Contact.schedule_follow_up`: `next_contact_scheduled = utcnow + delay`. -/
def schedule_follow_up (now : ℤ) (delay_hours : ℤ) (c : Contact) : Contact :=
  { c with next_contact_scheduled := some (now + delay_hours * 3600) }

/-- One contact through the `send_follow_ups` loop body: if selected by the
filter, dispatch on the chosen channel (`success` is the collaborator's
report); on success bump the counter, stamp the attempt and schedule the
next one; on failure (or when not selected) the record is untouched. -/
def followUpContact (cfg : Config) (now : ℤ) (success : Bool) (c : Contact) : Contact :=
  if followUpEligible cfg now c then
    if success then
      schedule_follow_up now cfg.follow_up_delay_hours
        { c with contact_attempts := c.contact_attempts + 1,
                 last_contact_attempt := some now }
    else c
  else c

/-- Fold a contact through a sequence of follow-up pass ticks, each with a
time and a dispatch outcome. -/
def runFollowUps (cfg : Config) (evs : List (ℤ × Bool)) (c : Contact) : Contact :=
  evs.foldl (fun acc ev => followUpContact cfg ev.1 ev.2 acc) c

/-- The per-property body of `initiate_contacts` restricted to the
`Property` table: when the initial email succeeds the property is marked
`CONTACTED`; nothing else of the property row changes. -/
def initiateMark (success : Bool) (p : Property) : Property :=
  if p.status = PropertyStatus.new ∧ p.still_available ∧ success then
    { p with status := .contacted }
  else p

/-- The web dashboard's status update
(`api_update_property_status` in src/web/app.py). -/
def updatePropertyStatus (pid : Nat) (st : PropertyStatus) (now : ℤ) (p : Property) : Property :=
  if p.id = pid then { p with status := st, last_updated := now } else p

/-! ### The retention pass (`daily_cleanup`) -/

/-- The persistent store touched by the passes. -/
structure Store where
  props : List Property
  logs : List ScrapingLog
deriving Repr

/-- `RentalScheduler.daily_cleanup`: flag still-available properties whose
`last_updated` is older than 7 days as unavailable (an `UPDATE`, no row
removed), and delete scraping logs whose `started_at` is older than 30 days. -/
def daily_cleanup (now : ℤ) (s : Store) : Store :=
  let old_threshold := now - 7 * 86400
  let props := s.props.map (fun p =>
    if p.last_updated < old_threshold ∧ p.still_available then
      { p with still_available := false }
    else p)
  let old_logs_threshold := now - 30 * 86400
  { props := props
    logs := s.logs.filter (fun l => !decide (l.started_at < old_logs_threshold)) }

/-! ### Reachable store states

Every code path of the repository that writes the `properties` table:
insertion and URL-refresh by the collection pass, the `CONTACTED` mark of
the initiation pass, the dashboard status update, and the retention pass.
None of them assigns `duplicate_of`. -/

inductive StoreOp where
  | collect (cfg : Config) (city site : String) (now : ℤ) (d : PropertyData)
  | initiate (pid : Nat) (success : Bool)
  | statusUpdate (pid : Nat) (st : PropertyStatus) (now : ℤ)
  | cleanup (now : ℤ)
  | logRun (l : ScrapingLog)

/-- Apply one write path to the store. -/
def applyOp (s : Store) : StoreOp → Store
  | .collect cfg city site now d =>
      { s with props := collectListing cfg city site now s.props d }
  | .initiate pid success =>
      { s with props := s.props.map (fun p =>
          if p.id = pid then initiateMark success p else p) }
  | .statusUpdate pid st now =>
      { s with props := s.props.map (updatePropertyStatus pid st now) }
  | .cleanup now => daily_cleanup now s
  | .logRun l => { s with logs := s.logs ++ [l] }

def emptyStore : Store := { props := [], logs := [] }

def runOps (ops : List StoreOp) (s : Store) : Store := ops.foldl applyOp s

/-- A store state reachable from the empty store through the write paths. -/
def Reachable (s : Store) : Prop := ∃ ops : List StoreOp, s = runOps ops emptyStore

/-! ### Spec-side definitions

These are written from the specification's words, to be compared with the
definitions above that were translated from the source. -/

/-- Modelled from the spec (§4.1 decision policy): report duplicate if the
address score beats `addressThreshold`; otherwise, only if the address score
is above `0.6`, report duplicate if the description score beats
`descriptionThreshold`; otherwise, only if the address score is above `0.4`,
report duplicate if every known specification agrees; otherwise distinct. -/
def specThreeRulePolicy (cfg : Config) (addrScore descScore : ℚ) (specsAgree : Bool) : Bool :=
  if addrScore > cfg.address_threshold then true
  else if addrScore > 6/10 ∧ descScore > cfg.description_threshold then true
  else if addrScore > 4/10 ∧ specsAgree then true
  else false

/-- Modelled from the spec (§4.2): the terminal outreach states. `Responded`
is terminal success; `no_response`, `failed` and `blocked` close the
campaign; `pending`, `email_sent` and `phone_called` are non-terminal. -/
def isTerminalStatus : ContactStatus → Bool
  | .responded => true
  | .no_response => true
  | .failed => true
  | .blocked => true
  | _ => false

/-- The eligibility predicate exactly as claim C2 words it: state
non-terminal, not responded, `attempt_count < maxAttempts`, and
`now − last_attempt_time ≥ followUpDelay`, the very first contact being
eligible as soon as no attempt has been made. -/
def claimEligible (cfg : Config) (now : ℤ) (c : Contact) : Bool :=
  !isTerminalStatus c.status &&
  c.responded = false &&
  c.contact_attempts < cfg.max_contact_attempts &&
  (match c.last_contact_attempt with
    | none => true
    | some t => decide (now - t ≥ cfg.follow_up_delay_hours * 3600))

/-- The channel table exactly as the spec words it: attempt 0 → email
(standard tone), attempt 1 → phone call, attempt 2 (final) → email
(urgent tone). -/
def specChannel : Nat → Channel
  | 0 => .follow_up_email
  | 1 => .phone_call
  | _ => .urgent_email

/-! ### Concrete instances used by witnesses and counterexamples -/

/-- The spec's scenario candidate: price 900, city Paris,
address "12 rue de Rivoli". -/
def parisCandidate : PropertyData :=
  { title := "Bel appartement lumineux"
    description := ""
    price := "900"
    rooms := ""
    area := ""
    address := "12 rue de Rivoli"
    city := "Paris"
    url := "https://www.seloger.example/annonces/900" }

/-- The spec's scenario stored listing: price 920, city Paris,
address "12 r Rivoli", available, last updated at time 1000. -/
def parisExisting : Property :=
  { id := 1
    title := "Appartement Rivoli"
    description := ""
    price := some 920
    rooms := none
    area := none
    address := "12 r Rivoli"
    city := "Paris"
    source_site := "seloger"
    source_url := "https://www.seloger.example/annonces/920"
    status := .new
    first_seen := 500
    last_updated := 1000
    still_available := true
    duplicate_of := none
    similarity_score := none }

/-- A scraped listing whose price text has no digits, so `parse_price`
fails on it. -/
def noPriceProbe : PropertyData :=
  { title := "Studio"
    description := ""
    price := "gratuit"
    rooms := ""
    area := ""
    address := "3 rue X"
    city := "Paris"
    url := "https://example/np" }

/-- A scraped listing with an empty price text, inserted in the witness
store of the reachability invariant. -/
def probeData : PropertyData :=
  { title := "T"
    description := ""
    price := ""
    rooms := ""
    area := ""
    address := "A"
    city := "Paris"
    url := "https://example/1" }

/-- A contact after a successful initial email: one of the statuses the
follow-up query selects, no attempt counted yet, an attempt stamp old
enough to be eligible at time 200000. -/
def followUpProbe : Contact :=
  { id := 7
    property_id := 1
    name := ""
    agency_name := ""
    email := "agency@example.fr"
    phone := ""
    status := .email_sent
    contact_attempts := 0
    last_contact_attempt := some 0
    next_contact_scheduled := none
    responded := false
    response_date := none }

/-! ### Evaluation lemmas for the Paris scenario -/

/-- The engine's address similarity of the scenario pair: the normalized
forms are "12 r de rivoli" and "12 r rivoli", the fuzz ratio is 88, the
street-number bonus adds 0.1 and three shared words add 0.3, clamped to 1. -/
theorem paris_address_similarity :
    calculate_address_similarity "12 rue de Rivoli" "12 r Rivoli" = 1 := by
  have h1 : fuzzScore (normalize_address "12 rue de Rivoli")
      (normalize_address "12 r Rivoli") = 88 := by decide
  have h2 : ¬digitRuns (normalize_address "12 rue de Rivoli") = [] ∧
      ¬digitRuns (normalize_address "12 r Rivoli") = [] ∧
      ∃ x ∈ digitRuns (normalize_address "12 rue de Rivoli"),
        x ∈ digitRuns (normalize_address "12 r Rivoli") := by decide
  have h3 : ∃ x ∈ (splitWs (normalize_address "12 rue de Rivoli")).eraseDups,
      x ∈ splitWs (normalize_address "12 r Rivoli") := by decide
  have h4 : (List.filter (fun w => decide (w ∈ splitWs (normalize_address "12 r Rivoli")))
      (splitWs (normalize_address "12 rue de Rivoli")).eraseDups).length = 3 := by decide
  rw [calculate_address_similarity]
  rw [if_neg (by decide)]
  norm_num [h1, h2, h3, h4]

/-- The scenario price text parses to 900. -/
theorem parse_price_900 : parse_price "900" = some 900 := by
  have h : parse_price "900" =
      some ((natOfDigits "900".data : ℚ) +
        (natOfDigits ([] : List Char) : ℚ) / (10 : ℚ) ^ (0 : ℕ)) := rfl
  rw [h]
  norm_num [show natOfDigits "900".data = 900 from by decide,
    show natOfDigits ([] : List Char) = 0 from rfl]

/-- The scenario pair is judged the same property: rule 1 fires because the
address similarity (1) exceeds the default threshold 0.85. -/
theorem paris_same_property :
    is_same_property defaultConfig parisCandidate parisExisting = true := by
  have ha : parisCandidate.address = "12 rue de Rivoli" := rfl
  have hb : parisExisting.address = "12 r Rivoli" := rfl
  rw [is_same_property, ha, hb, paris_address_similarity]
  rw [if_pos (by norm_num [defaultConfig])]

/-- The stored scenario listing passes the city/price-band/availability
pre-filter for the candidate's price 900. -/
theorem paris_candidate_filter :
    candidateFilter defaultConfig 900 (cityKey parisCandidate) [parisExisting] =
      [parisExisting] := by
  have hc : containsSub (cityKey parisCandidate)
      (toLowerL parisExisting.city.data) = true := by decide
  simp only [candidateFilter, List.filter, hc, Bool.true_and]
  norm_num [parisExisting, defaultConfig]

/-- The scenario candidate is classified a duplicate against the store
holding the scenario listing. -/
theorem paris_is_duplicate :
    isDuplicateOn defaultConfig [parisExisting] parisCandidate = true := by
  have hp : parisCandidate.price = "900" := rfl
  rw [isDuplicateOn]
  simp only [hp, parse_price_900]
  rw [if_neg (not_or.2 ⟨by norm_num [truthyQ], by decide⟩)]
  rw [paris_candidate_filter]
  simp [paris_same_property]

/-- The collection pass at time 5000 leaves the store untouched on the
scenario candidate: `create_property_from_data` drops the classified
duplicate before the save step ever runs. -/
theorem paris_collect_unchanged :
    collectListing defaultConfig "Paris" "seloger" 5000 [parisExisting] parisCandidate =
      [parisExisting] := by
  rw [collectListing, create_property_from_data]
  rw [show is_duplicate defaultConfig parisCandidate (.ok [parisExisting]) =
      isDuplicateOn defaultConfig [parisExisting] parisCandidate from rfl]
  rw [paris_is_duplicate]
  rfl

/-! ### Helper lemmas for the follow-up pass -/

/-- One follow-up step either leaves the attempt counter unchanged or,
only when the counter was below the maximum, increments it by one. -/
theorem followUpContact_attempts (cfg : Config) (now : ℤ) (success : Bool) (c : Contact) :
    (followUpContact cfg now success c).contact_attempts = c.contact_attempts ∨
    (c.contact_attempts < cfg.max_contact_attempts ∧
      (followUpContact cfg now success c).contact_attempts = c.contact_attempts + 1) := by
  by_cases h : followUpEligible cfg now c = true
  · cases success with
    | false => left; simp [followUpContact, h]
    | true =>
        right
        have h' := h
        unfold followUpEligible at h'
        simp [Bool.and_eq_true, decide_eq_true_eq, and_assoc] at h'
        exact ⟨h'.2.2.2, by simp [followUpContact, h, schedule_follow_up]⟩
  · simp [Bool.not_eq_true] at h
    left; simp [followUpContact, h]

/-- The attempt counter never decreases along any sequence of follow-up
pass ticks. -/
theorem runFollowUps_mono (cfg : Config) (evs : List (ℤ × Bool)) :
    ∀ c : Contact, c.contact_attempts ≤ (runFollowUps cfg evs c).contact_attempts := by
  induction evs with
  | nil => intro c; exact le_refl _
  | cons ev evs ih =>
      intro c
      have hstep := followUpContact_attempts cfg ev.1 ev.2 c
      have hrun : runFollowUps cfg (ev :: evs) c =
          runFollowUps cfg evs (followUpContact cfg ev.1 ev.2 c) := rfl
      rw [hrun]
      have := ih (followUpContact cfg ev.1 ev.2 c)
      rcases hstep with h' | ⟨hlt, h'⟩ <;> omega

/-- The attempt counter never exceeds the configured maximum along any
sequence of follow-up pass ticks. -/
theorem runFollowUps_bounded (cfg : Config) (evs : List (ℤ × Bool)) :
    ∀ c : Contact, c.contact_attempts ≤ cfg.max_contact_attempts →
      (runFollowUps cfg evs c).contact_attempts ≤ cfg.max_contact_attempts := by
  induction evs with
  | nil => intro c h; exact h
  | cons ev evs ih =>
      intro c h
      have hstep := followUpContact_attempts cfg ev.1 ev.2 c
      have hrun : runFollowUps cfg (ev :: evs) c =
          runFollowUps cfg evs (followUpContact cfg ev.1 ev.2 c) := rfl
      rw [hrun]
      apply ih
      rcases hstep with h' | ⟨hlt, h'⟩ <;> omega

/-! ### Helper lemmas for the reachability invariant -/

/-- Updating the first matching row with a field map that does not touch
`duplicate_of` preserves "no `duplicate_of` set" over the whole list. -/
theorem updateFirst_duplicate_of (pred : Property → Bool) (f : Property → Property)
    (hf : ∀ q, (f q).duplicate_of = q.duplicate_of) :
    ∀ l : List Property, (∀ q ∈ l, q.duplicate_of = none) →
      ∀ p ∈ updateFirst pred f l, p.duplicate_of = none := by
  intro l
  induction l with
  | nil => intro _ p hp; simp [updateFirst] at hp
  | cons q qs ih =>
      intro h p hp
      rw [updateFirst] at hp
      by_cases hq : pred q = true
      · rw [if_pos hq] at hp
        rcases List.mem_cons.1 hp with h1 | h1
        · rw [h1, hf]; exact h q (List.mem_cons_self q qs)
        · exact h p (List.mem_cons_of_mem q h1)
      · rw [if_neg hq] at hp
        rcases List.mem_cons.1 hp with h1 | h1
        · rw [h1]; exact h q (List.mem_cons_self q qs)
        · exact ih (fun r hr => h r (List.mem_cons_of_mem q hr)) p h1

/-- No write path of the store assigns `duplicate_of`: each operation
preserves "no `duplicate_of` set". -/
theorem applyOp_duplicate_of (op : StoreOp) (s : Store)
    (h : ∀ p ∈ s.props, p.duplicate_of = none) :
    ∀ p ∈ (applyOp s op).props, p.duplicate_of = none := by
  cases op with
  | collect cfg city site now d =>
      intro p hp
      simp only [applyOp, collectListing] at hp
      cases hc : create_property_from_data cfg (.ok s.props) d city site now with
      | none => simp only [hc] at hp; exact h p hp
      | some q =>
          simp only [hc] at hp
          have hq : q.duplicate_of = none := by
            rw [create_property_from_data] at hc
            by_cases hd : is_duplicate cfg d (.ok s.props) = true
            · simp [hd] at hc
            · simp [Bool.not_eq_true] at hd
              simp [hd] at hc
              rw [← hc]
              rfl
          rw [saveScrapedProperty] at hp
          by_cases hany : s.props.any (fun r => r.source_url = q.source_url) = true
          · rw [if_pos hany] at hp
            exact updateFirst_duplicate_of
              (fun r => decide (r.source_url = q.source_url))
              (fun r => { r with last_updated := now, still_available := true })
              (fun r => rfl) s.props h p hp
          · rw [if_neg hany] at hp
            rcases List.mem_append.1 hp with h1 | h1
            · exact h p h1
            · rw [List.mem_singleton.1 h1]; exact hq
  | initiate pid success =>
      intro p hp
      simp only [applyOp, List.mem_map] at hp
      obtain ⟨q, hqmem, hq⟩ := hp
      have hfix : ∀ r : Property, (initiateMark success r).duplicate_of = r.duplicate_of := by
        intro r; rw [initiateMark]; split <;> rfl
      rw [← hq]
      split
      · rw [hfix]; exact h q hqmem
      · exact h q hqmem
  | statusUpdate pid st now =>
      intro p hp
      simp only [applyOp, List.mem_map] at hp
      obtain ⟨q, hqmem, hq⟩ := hp
      rw [← hq, updatePropertyStatus]
      split
      · exact h q hqmem
      · exact h q hqmem
  | cleanup now =>
      intro p hp
      simp only [applyOp, daily_cleanup, List.mem_map] at hp
      obtain ⟨q, hqmem, hq⟩ := hp
      rw [← hq]
      split
      · exact h q hqmem
      · exact h q hqmem
  | logRun l =>
      intro p hp
      exact h p hp

/-- Folding any sequence of write paths preserves "no `duplicate_of` set". -/
theorem runOps_duplicate_of (ops : List StoreOp) :
    ∀ s : Store, (∀ p ∈ s.props, p.duplicate_of = none) →
      ∀ p ∈ (runOps ops s).props, p.duplicate_of = none := by
  induction ops with
  | nil => intro s h; exact h
  | cons op ops ih =>
      intro s h
      exact ih (applyOp s op) (applyOp_duplicate_of op s h)

/-! ### The claims -/

/-- C1. For every candidate and every existing listing, the engine's
duplicate decision (`_is_same_property`) equals the spec's three-rule
short-circuit policy applied to the engine's own address score, description
score and exact-specification comparator; over the filtered candidate set,
if no candidate triggers any rule, `is_duplicate` reports Distinct; and the
default thresholds are 0.85 (address) and 0.75 (description). -/
theorem dedup_decision_matches_spec_policy (cfg : Config) (d : PropertyData)
    (e : Property) (props : List Property) :
    is_same_property cfg d e =
      specThreeRulePolicy cfg
        (calculate_address_similarity d.address e.address)
        (calculate_description_similarity (newDescText d) (existingDescText e))
        (exact_specs_match cfg d e) ∧
    ((∀ p ∈ props, is_same_property cfg d p = false) →
      isDuplicateOn cfg props d = false) ∧
    defaultConfig.address_threshold = 85/100 ∧
    defaultConfig.description_threshold = 75/100 := by
  refine ⟨rfl, ?_, rfl, rfl⟩
  intro h
  unfold isDuplicateOn
  simp only []
  split
  · rfl
  · cases hp : parse_price d.price with
    | none => simp
    | some p =>
        simp only [List.any_eq_false]
        intro q hq
        simp [h q (List.mem_filter.1 hq).1]

/-- C2 (counterexample). A freshly created outreach target — state
`PENDING`, `responded` false, no attempt yet made — satisfies the claim's
eligibility predicate ("the very first contact is eligible simply when no
attempt has yet been made"), yet the follow-up pass's selection filter does
not select it: the pass only selects `EMAIL_SENT`/`PHONE_CALLED` targets
with a recorded previous attempt. -/
theorem follow_up_first_contact_counterexample :
    claimEligible defaultConfig 1000000 (mkContact 1 1) = true ∧
    followUpEligible defaultConfig 1000000 (mkContact 1 1) = false := by
  constructor <;> rfl

/-- C2 (amended). The follow-up pass selects a target exactly when its state
is `EMAIL_SENT` or `PHONE_CALLED` (so never for a first contact, which the
initiation pass performs), `responded` is false, `attempt_count` is below
the maximum, and a recorded last attempt is strictly older than
`now − followUpDelay`; the dispatched channel is fixed by attempt index
exactly as the spec's table states. -/
theorem follow_up_selection_and_channel (cfg : Config) (now : ℤ) (c : Contact) :
    (followUpEligible cfg now c = true ↔
      ((c.status = ContactStatus.email_sent ∨ c.status = ContactStatus.phone_called) ∧
        c.responded = false ∧
        c.contact_attempts < cfg.max_contact_attempts ∧
        ∃ t, c.last_contact_attempt = some t ∧
          t < now - cfg.follow_up_delay_hours * 3600)) ∧
    followUpAction c = specChannel c.contact_attempts := by
  constructor
  · unfold followUpEligible
    cases h : c.last_contact_attempt with
    | none => simp [h]
    | some t =>
        simp [h, Bool.and_eq_true, decide_eq_true_eq]
        tauto
  · unfold followUpAction specChannel
    match c.contact_attempts with
    | 0 => rfl
    | 1 => rfl
    | n + 2 => rfl

/-- C3. For a target the follow-up pass selects: a successful dispatch
increments the attempt counter, stamps `last_contact_attempt = now` and
schedules the next attempt at `now + followUpDelay`; a failed dispatch
leaves the record exactly unchanged, and the unchanged target is still
selected at every later pass tick, so the same attempt index is retried. -/
theorem follow_up_dispatch_outcome (cfg : Config) (now : ℤ) (c : Contact)
    (h : followUpEligible cfg now c = true) :
    followUpContact cfg now true c =
      { c with contact_attempts := c.contact_attempts + 1,
               last_contact_attempt := some now,
               next_contact_scheduled := some (now + cfg.follow_up_delay_hours * 3600) } ∧
    followUpContact cfg now false c = c ∧
    (∀ now' : ℤ, now ≤ now' →
      followUpEligible cfg now' (followUpContact cfg now false c) = true) := by
  refine ⟨?_, ?_, ?_⟩
  · simp [followUpContact, h, schedule_follow_up]
  · simp [followUpContact, h]
  · intro now' hle
    have h2 : followUpContact cfg now false c = c := by simp [followUpContact, h]
    rw [h2]
    unfold followUpEligible at h ⊢
    cases ht : c.last_contact_attempt with
    | none => simp [ht] at h
    | some t =>
        simp [ht, Bool.and_eq_true, decide_eq_true_eq, and_assoc] at h ⊢
        obtain ⟨h1, h2, h3, h4⟩ := h
        refine ⟨h1, h2, by omega, h4⟩

/-- C3 (witness). The outcome theorem at the concrete eligible contact
`followUpProbe` and tick time 200000. -/
theorem follow_up_dispatch_outcome_witness :
    followUpContact defaultConfig 200000 true followUpProbe =
      { followUpProbe with
          contact_attempts := followUpProbe.contact_attempts + 1,
          last_contact_attempt := some 200000,
          next_contact_scheduled :=
            some (200000 + defaultConfig.follow_up_delay_hours * 3600) } ∧
    followUpContact defaultConfig 200000 false followUpProbe = followUpProbe ∧
    (∀ now' : ℤ, 200000 ≤ now' →
      followUpEligible defaultConfig now'
        (followUpContact defaultConfig 200000 false followUpProbe) = true) :=
  follow_up_dispatch_outcome defaultConfig 200000 followUpProbe (by decide)

/-- C4 (counterexample). In the spec's scenario the candidate (price 900,
Paris, "12 rue de Rivoli") is classified a duplicate of the stored listing
(price 920, Paris, "12 r Rivoli"), yet the collection pass at time 5000
leaves the store exactly as it was: the stored listing's `last_updated`
stays 1000 — its availability timestamp is not refreshed, contrary to the
claim. -/
theorem collection_refresh_counterexample :
    isDuplicateOn defaultConfig [parisExisting] parisCandidate = true ∧
    collectListing defaultConfig "Paris" "seloger" 5000 [parisExisting] parisCandidate =
      [parisExisting] ∧
    parisExisting.last_updated = 1000 ∧ (1000 : ℤ) ≠ 5000 := by
  refine ⟨paris_is_duplicate, paris_collect_unchanged, rfl, by decide⟩

/-- C4 (amended). A listing classified a duplicate is skipped by the
collection pass: it is not inserted and no stored listing is refreshed.
A Distinct listing goes through the save step, which inserts it when no
stored listing shares its `source_url` (timestamps are refreshed only on
such an exact URL match). In the spec's scenario the address similarity
exceeds 0.85 and the candidate is classified Duplicate, but the store —
including the existing listing's timestamps — is left unchanged. -/
theorem collection_duplicate_handling (cfg : Config) (city site : String)
    (now : ℤ) (props : List Property) (d : PropertyData) (p : Property) :
    (isDuplicateOn cfg props d = true → collectListing cfg city site now props d = props) ∧
    (isDuplicateOn cfg props d = false →
      collectListing cfg city site now props d =
        saveScrapedProperty now props (mkProperty d city site now)) ∧
    (props.any (fun q => q.source_url = p.source_url) = false →
      saveScrapedProperty now props p = props ++ [p]) ∧
    calculate_address_similarity "12 rue de Rivoli" "12 r Rivoli" > 85/100 ∧
    isDuplicateOn defaultConfig [parisExisting] parisCandidate = true ∧
    collectListing defaultConfig "Paris" "seloger" 5000 [parisExisting] parisCandidate =
      [parisExisting] := by
  refine ⟨?_, ?_, ?_, ?_, paris_is_duplicate, paris_collect_unchanged⟩
  · intro h
    simp [collectListing, create_property_from_data, is_duplicate, h]
  · intro h
    simp [collectListing, create_property_from_data, is_duplicate, h]
  · intro h
    rw [saveScrapedProperty, if_neg]
    simp [h]
  · rw [paris_address_similarity]; norm_num

/-- C5. The attempt counter of an outreach target is non-decreasing under
any sequence of follow-up pass ticks, never exceeds the configured maximum
once below it, and a freshly created contact record starts at zero. (The
follow-up loop is the only code path that writes `contact_attempts`;
creation initializes it to the column default 0.) -/
theorem attempt_count_monotone_bounded (cfg : Config) (evs : List (ℤ × Bool))
    (c : Contact) (cid pid : Nat) :
    c.contact_attempts ≤ (runFollowUps cfg evs c).contact_attempts ∧
    (c.contact_attempts ≤ cfg.max_contact_attempts →
      (runFollowUps cfg evs c).contact_attempts ≤ cfg.max_contact_attempts) ∧
    (mkContact cid pid).contact_attempts = 0 :=
  ⟨runFollowUps_mono cfg evs c, runFollowUps_bounded cfg evs c, rfl⟩

/-- C6. A candidate whose price text does not parse to a number, or whose
city is empty, is reported Distinct against every possible store, without
any comparison being made. -/
theorem missing_data_yields_distinct (cfg : Config) (props : List Property)
    (d : PropertyData) (h : parse_price d.price = none ∨ cityKey d = []) :
    isDuplicateOn cfg props d = false := by
  unfold isDuplicateOn
  simp only []
  rcases h with h | h
  · rw [if_pos (Or.inl (by rw [h]; rfl))]
  · rw [if_pos (Or.inr h)]

/-- C6 (witness). The candidate with price text "gratuit" (no digits) is
Distinct even against the store holding the Paris listing. -/
theorem missing_data_yields_distinct_witness :
    isDuplicateOn defaultConfig [parisExisting] noPriceProbe = false :=
  missing_data_yields_distinct defaultConfig [parisExisting] noPriceProbe
    (Or.inl (by decide))

/-- C7. The retention pass deletes no listing (the stored ids are exactly
preserved): it flags every still-available listing whose `last_updated` is
older than 7 days as unavailable, leaves every other listing untouched,
with every surviving stale listing unavailable; and it keeps exactly the
scraping-log records whose `started_at` is within the last 30 days. -/
theorem daily_cleanup_flags_and_purges (now : ℤ) (s : Store) :
    (daily_cleanup now s).props.map Property.id = s.props.map Property.id ∧
    (∀ p ∈ (daily_cleanup now s).props,
      p.last_updated < now - 7 * 86400 → p.still_available = false) ∧
    (∀ p ∈ s.props, p.still_available = true → p.last_updated < now - 7 * 86400 →
      { p with still_available := false } ∈ (daily_cleanup now s).props) ∧
    (∀ p ∈ s.props, ¬(p.last_updated < now - 7 * 86400 ∧ p.still_available = true) →
      p ∈ (daily_cleanup now s).props) ∧
    (∀ l : ScrapingLog, l ∈ (daily_cleanup now s).logs ↔
      l ∈ s.logs ∧ ¬(l.started_at < now - 30 * 86400)) := by
  refine ⟨?_, ?_, ?_, ?_, ?_⟩
  · simp only [daily_cleanup, List.map_map]
    apply List.map_congr_left
    intro p _
    simp only [Function.comp]
    split <;> rfl
  · intro p hp hstale
    simp only [daily_cleanup, List.mem_map] at hp
    obtain ⟨q, hqmem, hq⟩ := hp
    revert hq
    split
    · intro hq; rw [← hq]
    · rename_i hcond
      intro hq
      rw [← hq] at hstale ⊢
      rcases Bool.eq_false_or_eq_true q.still_available with hb | hb
      · exact absurd ⟨hstale, hb⟩ hcond
      · exact hb
  · intro p hp hav hstale
    simp only [daily_cleanup, List.mem_map]
    exact ⟨p, hp, by rw [if_pos ⟨hstale, hav⟩]⟩
  · intro p hp hfresh
    simp only [daily_cleanup, List.mem_map]
    exact ⟨p, hp, by rw [if_neg hfresh]⟩
  · intro l
    simp [daily_cleanup, List.mem_filter]

/-- C8. In every store state reachable through the system's write paths,
no listing has a `duplicate_of` reference at all — the engine drops
classified duplicates instead of storing them — so in particular every
listing whose `duplicate_of` is set points to a listing that has none
itself: duplicates always point to a canonical record, and every write
path preserves this invariant. -/
theorem duplicate_of_points_to_canonical (s : Store) (hs : Reachable s) :
    (∀ p ∈ s.props, p.duplicate_of = none) ∧
    (∀ p ∈ s.props, ∀ q ∈ s.props, p.duplicate_of = some q.id →
      q.duplicate_of = none) := by
  obtain ⟨ops, rfl⟩ := hs
  have hall := runOps_duplicate_of ops emptyStore (by intro p hp; simp [emptyStore] at hp)
  exact ⟨hall, fun p _ q hq _ => hall q hq⟩

/-- C8 (witness). The invariant theorem applied to the reachable store
obtained by collecting `probeData` into the empty store: the one stored
listing carries no `duplicate_of` reference. -/
theorem duplicate_of_points_to_canonical_witness :
    (mkProperty probeData "Paris" "seloger" 0).duplicate_of = none := by
  have hreach :
      Reachable (runOps [.collect defaultConfig "Paris" "seloger" 0 probeData] emptyStore) :=
    ⟨[.collect defaultConfig "Paris" "seloger" 0 probeData], rfl⟩
  exact (duplicate_of_points_to_canonical _ hreach).1
    (mkProperty probeData "Paris" "seloger" 0) (List.mem_singleton_self _)

/-- C10. The duplicate check is total at its public boundary: it returns a
Boolean for every input (it is a function into `Bool`); a store/query
failure is caught and yields `False`; on a successful read it agrees with
the pure decision; and a listing whose duplicate check errored is treated
as distinct, so `create_property_from_data` still builds the new listing
instead of aborting. -/
theorem duplicate_check_total (cfg : Config) (d : PropertyData)
    (props : List Property) (e : String) (city site : String) (now : ℤ) :
    is_duplicate cfg d (.error e) = false ∧
    is_duplicate cfg d (.ok props) = isDuplicateOn cfg props d ∧
    create_property_from_data cfg (.error e) d city site now =
      some (mkProperty d city site now) :=
  ⟨rfl, rfl, rfl⟩

end RentalHunter
